import Mathlib

/-!
# Verification of the math-worksheet-generator core

Shallow embedding of the repository's data models and algorithms:

* `MathProblem` — src/js/models/MathProblem.js
* `WorksheetConfig` and the lookup tables — src/unnamed/part_001, src/unnamed/part_004
* `ProblemGenerator` — src/unnamed/part_003
* `LayoutEngine` — src/js/core/ImageExporter.js (the `class LayoutEngine`
  after the document separator, lines 396-1026)

Modelling conventions:

* JavaScript numbers are modelled as `Int` (all numbers handled by the core are
  integers; `Number.isInteger` checks are therefore vacuously true inside the
  model, and the `< 0` / range parts of those checks are kept verbatim).
  Ratio values (claim about `generateProblemsWithRatioControl`) are modelled as
  `Rat` because they are compared against a 0.01 tolerance.
* `Math.random()` is modelled by an explicit deterministic stream of naturals
  `Rng := Nat → Nat`.  Each primitive use in the source consumes one element:
  `Math.floor(Math.random() * n)` becomes `g 0 % n`, `Math.random() < 0.5`
  becomes `g 0 % 2 = 0`, and `Math.random() < 0.3` becomes `g 0 % 10 < 3`.
  Every concrete outcome of the JavaScript code corresponds to some stream and
  vice versa, which is what the range/termination/length claims quantify over.
* `throw` becomes `Except.error` with the source's message text.
* The mutable generator instance state (`generatedProblems` set and
  `numberUsageTracker` map) is threaded explicitly as `GenState`; the JS `Map`
  with insertion order is an association list.
-/

/-- Deterministic model of the `Math.random()` stream. -/
abbrev Rng : Type := Nat → Nat

/-- Advance the random stream by one element. -/
def rngTail (g : Rng) : Rng := fun i => g (i + 1)

/-- `Math.floor(Math.random() * n)`: a draw uniform over `0 .. n-1`
(`0` when `n = 0`). Consumes one stream element. -/
def randFloorMul (n : Nat) (g : Rng) : Nat × Rng :=
  (g 0 % n, rngTail g)

/-- `Math.random() < 0.5`, as used for the mixed-mode operator choice. -/
def randBoolHalf (g : Rng) : Bool × Rng :=
  (g 0 % 2 = 0, rngTail g)

/-- `Math.random() < 0.3`, as used for the large-range re-draw chance. -/
def randBool30 (g : Rng) : Bool × Rng :=
  (g 0 % 10 < 3, rngTail g)

/-- Discard the error of an `Except`, for stating decidable facts about
concrete runs without comparing error strings. -/
def exceptToOpt {ε α : Type} : Except ε α → Option α
  | .ok a => some a
  | .error _ => none

/-- `true` exactly when an `Except` is `ok`. -/
def isOkE {ε α : Type} : Except ε α → Bool
  | .ok _ => true
  | .error _ => false

/-!
## MathProblem (src/js/models/MathProblem.js)

Fields `id` and `createdAt` (a fresh string / timestamp, never validated and
never read by the generator or layout algorithms) are not modelled.
-/

/-- One arithmetic problem (`MathProblem`, src/js/models/MathProblem.js). -/
structure MathProblem where
  operand1 : Int
  operand2 : Int
  operator : Char
  result : Int
deriving DecidableEq, Repr

/-- `MathProblem.validate` (src/js/models/MathProblem.js lines 37-65): the four
checks in source order, each `throw` becoming `Except.error`.  The
`Number.isInteger` half of the first two checks is vacuous under the `Int`
model; the `< 0` half is kept. -/
def MathProblem.validateE (p : MathProblem) : Except String Unit :=
  if p.operand1 < 0 then .error "Operand1 must be a non-negative integer"
  else if p.operand2 < 0 then .error "Operand2 must be a non-negative integer"
  else if p.operator ≠ '+' ∧ p.operator ≠ '-' then .error "Operator must be + or -"
  else
    let expectedResult := if p.operator = '+' then p.operand1 + p.operand2 else p.operand1 - p.operand2
    if p.result ≠ expectedResult then .error "Result is incorrect"
    else if p.operator = '-' ∧ p.result < 0 then .error "Subtraction result cannot be negative"
    else .ok ()

/-- `new MathProblem(...)` (constructor, lines 13-23): store the fields, then
`validate`; a validation throw aborts construction. -/
def MathProblem.create (operand1 operand2 : Int) (operator : Char) (result : Int) :
    Except String MathProblem :=
  let p : MathProblem := ⟨operand1, operand2, operator, result⟩
  match p.validateE with
  | .ok _ => .ok p
  | .error e => .error e

/-- The Problem invariant stated by the spec: non-negative integer operands, a
`'+'`/`'-'` operator, the result equal to `operand1 operator operand2`, and a
non-negative result. -/
def ProblemInvariant (operand1 operand2 : Int) (operator : Char) (result : Int) : Prop :=
  0 ≤ operand1 ∧ 0 ≤ operand2 ∧ (operator = '+' ∨ operator = '-') ∧
    result = (if operator = '+' then operand1 + operand2 else operand1 - operand2) ∧
    0 ≤ result

/-!
## Lookup tables (src/unnamed/part_004, lines 938-1038 and 1147-1161)
-/

/-- One entry of `DIFFICULTY_LEVELS`. -/
structure DifficultyConfig where
  name : String
  maxNumber : Int
  minNumber : Int
deriving DecidableEq, Repr

/-- One entry of `OPERATION_TYPES` (the `operation` closure is never read by
the generator, which branches on `name`; it is not modelled). -/
structure OperationConfig where
  name : String
  symbol : Char
deriving DecidableEq, Repr

/-- One entry of `LAYOUT_TYPES`. -/
structure LayoutType where
  name : String
  columns : Nat
  problemsPerPage : Int
  horizontalSpacing : Int
  verticalSpacing : Int
deriving DecidableEq, Repr

/-- One entry of `BACKGROUND_STYLES` (only the key set and the `name` matter
to the validated invariants; style-drawing parameters are not modelled). -/
structure BackgroundStyle where
  name : String
  type : String
deriving DecidableEq, Repr

/-- `DIFFICULTY_LEVELS` (part_004 lines 939-960), as a keyed lookup. -/
def DIFFICULTY_LEVELS (k : String) : Option DifficultyConfig :=
  if k = "within10" then some ⟨"10以内", 10, 1⟩
  else if k = "within20" then some ⟨"20以内", 20, 1⟩
  else if k = "within50" then some ⟨"50以内", 50, 1⟩
  else if k = "within100" then some ⟨"100以内", 100, 1⟩
  else none

/-- `OPERATION_TYPES` (part_004 lines 963-979). -/
def OPERATION_TYPES (k : String) : Option OperationConfig :=
  if k = "addition" then some ⟨"加法", '+'⟩
  else if k = "subtraction" then some ⟨"减法", '-'⟩
  else if k = "mixed" then some ⟨"加减混合", '±'⟩
  else none

/-- `LAYOUT_TYPES` (part_004 lines 982-1001). -/
def LAYOUT_TYPES (k : String) : Option LayoutType :=
  if k = "two-column" then some ⟨"两列", 2, 20, 50, 80⟩
  else if k = "three-column" then some ⟨"三列", 3, 30, 40, 70⟩
  else none

/-- `BACKGROUND_STYLES` (part_004 lines 1004-1038). -/
def BACKGROUND_STYLES (k : String) : Option BackgroundStyle :=
  if k = "blank" then some ⟨"空白", "blank"⟩
  else if k = "lined" then some ⟨"横线", "lined"⟩
  else if k = "grid" then some ⟨"方格", "grid"⟩
  else if k = "dotted" then some ⟨"点阵", "dotted"⟩
  else if k = "custom" then some ⟨"自定义", "custom"⟩
  else none

/-- `VALIDATION_RULES.problemCount.min` (part_004 line 1150). -/
def problemCountMin : Int := 1

/-- `VALIDATION_RULES.problemCount.max` (part_004 line 1151). -/
def problemCountMax : Int := 50

/-!
## WorksheetConfig (src/unnamed/part_001)

`createdAt` (a timestamp, never validated) is not modelled.  JavaScript
truthiness used by the `||` defaults is made explicit per type: a string is
falsy iff empty or absent, a number iff `0` or absent, `null` is falsy.
-/

/-- The configuration record (`WorksheetConfig`, part_001). -/
structure WorksheetConfig where
  difficulty : String
  operationType : String
  layout : String
  backgroundStyle : String
  paperFormat : String
  customBackgroundUrl : Option String
  problemCount : Int
  showAnswers : Bool
  title : String
deriving DecidableEq, Repr

/-- The constructor's `options` argument: every field optional. -/
structure ConfigOptions where
  difficulty : Option String := none
  operationType : Option String := none
  layout : Option String := none
  backgroundStyle : Option String := none
  paperFormat : Option String := none
  customBackgroundUrl : Option String := none
  problemCount : Option Int := none
  showAnswers : Option Bool := none
  title : Option String := none
deriving DecidableEq, Repr

/-- `o || d` for an optional string option: absent or empty falls back. -/
def jsOrStr (o : Option String) (d : String) : String :=
  match o with
  | some s => if s = "" then d else s
  | none => d

/-- `o || null` for an optional string: absent or empty becomes `null`. -/
def jsOrNullStr (o : Option String) : Option String :=
  match o with
  | some s => if s = "" then none else some s
  | none => none

/-- `o || d` for an optional number: absent or `0` falls back. -/
def jsOrInt (o : Option Int) (d : Int) : Int :=
  match o with
  | some c => if c = 0 then d else c
  | none => d

/-- Truthiness of a nullable string, as tested by `!this.customBackgroundUrl`
and `updates.layout &&`. -/
def jsTruthyStr (o : Option String) : Bool :=
  match o with
  | some s => s ≠ ""
  | none => false

/-- `getDefaultProblemCount` (part_001 lines 30-33). -/
def WorksheetConfig.getDefaultProblemCount (layout : String) : Int :=
  match LAYOUT_TYPES layout with
  | some lc => lc.problemsPerPage
  | none => 20

/-- `WorksheetConfig.validate` (part_001 lines 39-71): six checks in source
order, each `throw` becoming `Except.error`. -/
def WorksheetConfig.validateE (c : WorksheetConfig) : Except String Unit :=
  if (DIFFICULTY_LEVELS c.difficulty).isNone then
    .error ("Invalid difficulty level: " ++ c.difficulty)
  else if (OPERATION_TYPES c.operationType).isNone then
    .error ("Invalid operation type: " ++ c.operationType)
  else if (LAYOUT_TYPES c.layout).isNone then
    .error ("Invalid layout: " ++ c.layout)
  else if (BACKGROUND_STYLES c.backgroundStyle).isNone then
    .error ("Invalid background style: " ++ c.backgroundStyle)
  else if c.problemCount < problemCountMin ∨ problemCountMax < c.problemCount then
    .error "Problem count must be between 1 and 50"
  else if c.backgroundStyle = "custom" ∧ ¬ jsTruthyStr c.customBackgroundUrl then
    .error "Custom background URL is required when using custom background style"
  else .ok ()

/-- `WorksheetConfig.validate` as a boolean. -/
def WorksheetConfig.validB (c : WorksheetConfig) : Bool :=
  isOkE c.validateE

/-- The field-assignment phase of the constructor (part_001 lines 11-19):
apply the `||` defaults field by field, `problemCount` defaulting from the
already-assigned `layout`. -/
def WorksheetConfig.fromOptions (options : ConfigOptions) : WorksheetConfig :=
  let layout := jsOrStr options.layout "two-column"
  { difficulty := jsOrStr options.difficulty "within20"
    operationType := jsOrStr options.operationType "addition"
    layout := layout
    backgroundStyle := jsOrStr options.backgroundStyle "blank"
    paperFormat := jsOrStr options.paperFormat "a4"
    customBackgroundUrl := jsOrNullStr options.customBackgroundUrl
    problemCount := jsOrInt options.problemCount (WorksheetConfig.getDefaultProblemCount layout)
    showAnswers := (options.showAnswers).getD false
    title := (options.title).getD "" }

/-- `new WorksheetConfig(options)` (part_001 lines 9-24): assign the defaulted
fields, then `validate`; a validation throw aborts construction. -/
def WorksheetConfig.create (options : ConfigOptions) : Except String WorksheetConfig :=
  let c := WorksheetConfig.fromOptions options
  match c.validateE with
  | .ok _ => .ok c
  | .error e => .error e

/-- The `updates` argument of `WorksheetConfig.update`: for
`customBackgroundUrl` the outer option is "key present in `updates`" and the
inner is `null` vs a string. -/
structure ConfigUpdates where
  difficulty : Option String := none
  operationType : Option String := none
  layout : Option String := none
  backgroundStyle : Option String := none
  paperFormat : Option String := none
  customBackgroundUrl : Option (Option String) := none
  problemCount : Option Int := none
  showAnswers : Option Bool := none
  title : Option String := none
deriving DecidableEq, Repr

/-- The field-assignment phase of `update` (part_001 lines 214-223): every
supplied key is written verbatim onto the instance (no truthiness filtering),
then `problemCount` is reset to the new layout's default when `updates.layout`
is truthy and `updates.problemCount` is falsy (absent or `0`). -/
def WorksheetConfig.applyUpdates (c : WorksheetConfig) (u : ConfigUpdates) : WorksheetConfig :=
  let c' : WorksheetConfig :=
    { difficulty := (u.difficulty).getD c.difficulty
      operationType := (u.operationType).getD c.operationType
      layout := (u.layout).getD c.layout
      backgroundStyle := (u.backgroundStyle).getD c.backgroundStyle
      paperFormat := (u.paperFormat).getD c.paperFormat
      customBackgroundUrl := (u.customBackgroundUrl).getD c.customBackgroundUrl
      problemCount := (u.problemCount).getD c.problemCount
      showAnswers := (u.showAnswers).getD c.showAnswers
      title := (u.title).getD c.title }
  if jsTruthyStr u.layout ∧ jsOrInt u.problemCount 0 = 0 then
    { c' with problemCount := WorksheetConfig.getDefaultProblemCount c'.layout }
  else c'

/-- `WorksheetConfig.update` (part_001 lines 213-229): mutate the fields in
place, then re-validate.  The returned pair is the instance's state after the
call together with the raised validation error, if any — when validation
throws, the mutated state persists (there is no rollback in the source). -/
def WorksheetConfig.update (c : WorksheetConfig) (u : ConfigUpdates) :
    WorksheetConfig × Option String :=
  let c' := WorksheetConfig.applyUpdates c u
  match c'.validateE with
  | .ok _ => (c', none)
  | .error e => (c', some e)

/-- The Configuration invariant claimed by the spec: all four enum fields are
keys of their lookup tables, `problemCount ∈ [1, 50]`, and a `custom`
background has a non-empty URL. -/
def ConfigInvariant (c : WorksheetConfig) : Prop :=
  (DIFFICULTY_LEVELS c.difficulty).isSome ∧
  (OPERATION_TYPES c.operationType).isSome ∧
  (LAYOUT_TYPES c.layout).isSome ∧
  (BACKGROUND_STYLES c.backgroundStyle).isSome ∧
  1 ≤ c.problemCount ∧ c.problemCount ≤ 50 ∧
  (c.backgroundStyle = "custom" → jsTruthyStr c.customBackgroundUrl = true)

/-!
## ProblemGenerator (src/unnamed/part_003)

The generator instance's mutable state (`generatedProblems : Set<string>` and
`numberUsageTracker : Map<number, number>`) is threaded explicitly.  Both are
cleared at the start of `generateProblems`, so runs start from the empty state.
-/

/-- The `numberUsageTracker` map, with JS `Map` insertion order. -/
abbrev UsageTracker : Type := List (Int × Nat)

/-- `getNumberUsage` (part_003 lines 25-27). -/
def getNumberUsage (u : UsageTracker) (num : Int) : Nat :=
  (u.lookup num).getD 0

/-- `Map.set`: replace the binding in place, or append a new one. -/
def mapSet : UsageTracker → Int → Nat → UsageTracker
  | [], k, v => [(k, v)]
  | (k', v') :: rest, k, v =>
    if k' = k then (k, v) :: rest else (k', v') :: mapSet rest k v

/-- `trackNumberUsage` (part_003 lines 33-36). -/
def trackNumberUsage (u : UsageTracker) (num : Int) : UsageTracker :=
  mapSet u num (getNumberUsage u num + 1)

/-- `this.maxRetries` (part_003 line 8). -/
def maxRetries : Nat := 100

/-- `getProblemSignature` (part_003 lines 281-283): the concatenation
`operand1 ‖ operator ‖ operand2`. -/
def getProblemSignature (p : MathProblem) : String :=
  toString p.operand1 ++ String.singleton p.operator ++ toString p.operand2

/-- `isDuplicate` (part_003 lines 271-274), on the explicit signature set. -/
def isDuplicate (generated : List String) (p : MathProblem) : Bool :=
  generated.contains (getProblemSignature p)

/-- `Set.add`: append the signature if not already present. -/
def addSignature (generated : List String) (sig : String) : List String :=
  if generated.contains sig then generated else generated ++ [sig]

/-- The values `min .. max` enumerated by the small-range branch of
`randomIntUniform` (part_003 lines 159-162). -/
def rangeValues (min max : Int) : List Int :=
  (List.range (max - min + 1).toNat).map (fun (i : Nat) => min + (i : Int))

/-- `Math.min(...numbers.map(n => n.usage))` (part_003 line 165).  The list is
empty only when `max < min`, which no caller produces. -/
def minUsageIn (u : UsageTracker) (min max : Int) : Nat :=
  match (rangeValues min max).map (getNumberUsage u) with
  | [] => 0
  | h :: t => t.foldl Nat.min h

/-- The `candidates` filter of `randomIntUniform` (part_003 line 168): values
whose usage count is within 1 of the current minimum usage. -/
def usageCandidates (u : UsageTracker) (min max : Int) : List Int :=
  (rangeValues min max).filter (fun v => getNumberUsage u v ≤ minUsageIn u min max + 1)

/-- `randomIntUniform` (part_003 lines 153-185): for ranges of at most 20
values, a uniform pick among the near-minimum-usage candidates; for larger
ranges a plain draw with a 30% chance of one re-draw when the candidate's
usage exceeds 2 (the `Math.random() < 0.3` is only evaluated — and the stream
only consumed — when `usage > 2`, mirroring `&&` short-circuiting). -/
def randomIntUniform (u : UsageTracker) (min max : Int) (g : Rng) : Int × Rng :=
  let range : Int := max - min + 1
  if range ≤ 20 then
    let candidates := usageCandidates u min max
    let (r, g1) := randFloorMul candidates.length g
    ((candidates.get? r).getD min, g1)
  else
    let (r, g1) := randFloorMul range.toNat g
    let candidate := min + (r : Int)
    if 2 < getNumberUsage u candidate then
      let (b, g2) := randBool30 g1
      if b then
        let (r2, g3) := randFloorMul range.toNat g2
        (min + (r2 : Int), g3)
      else (candidate, g2)
    else (candidate, g1)

/-- `randomInt` (part_003 lines 139-144): plain uniform draw unless the
`useUniformDistribution` flag is passed.  (For `max < min` — which no caller
produces — the model returns `min` where JS would produce a negative offset.) -/
def randomInt (u : UsageTracker) (min max : Int) (useUniformDistribution : Bool) (g : Rng) :
    Int × Rng :=
  if useUniformDistribution then randomIntUniform u min max g
  else
    let (r, g1) := randFloorMul (max - min + 1).toNat g
    (min + (r : Int), g1)

/-- `generateSingleProblem` (part_003 lines 95-129): draw the two operands with
`this.randomInt(min, max)` (the `useUniformDistribution` flag is NOT passed, so
it defaults to `false`), branch on `operationConfig.name`, swap the operands of
a subtraction when `operand1 < operand2`, compute the result, and run the
`MathProblem` constructor (which re-validates). -/
def generateSingleProblem (dc : DifficultyConfig) (oc : OperationConfig)
    (u : UsageTracker) (g : Rng) : Except String (MathProblem × Rng) :=
  let (operand1, g1) := randomInt u dc.minNumber dc.maxNumber false g
  let (operand2, g2) := randomInt u dc.minNumber dc.maxNumber false g1
  if oc.name = "加法" then
    match MathProblem.create operand1 operand2 '+' (operand1 + operand2) with
    | .ok p => .ok (p, g2)
    | .error e => .error e
  else if oc.name = "减法" then
    let (a, b) := if operand1 < operand2 then (operand2, operand1) else (operand1, operand2)
    match MathProblem.create a b '-' (a - b) with
    | .ok p => .ok (p, g2)
    | .error e => .error e
  else if oc.name = "加减混合" then
    let (isAdd, g3) := randBoolHalf g2
    if isAdd then
      match MathProblem.create operand1 operand2 '+' (operand1 + operand2) with
      | .ok p => .ok (p, g3)
      | .error e => .error e
    else
      let (a, b) := if operand1 < operand2 then (operand2, operand1) else (operand1, operand2)
      match MathProblem.create a b '-' (a - b) with
      | .ok p => .ok (p, g3)
      | .error e => .error e
  else .error ("Unsupported operation type: " ++ oc.name)

/-- `fitsInDifficulty` (src/js/models/MathProblem.js lines 168-188): both
operands inside the difficulty's `[minNumber, maxNumber]` and a non-negative
result; `false` for an unknown difficulty key. -/
def fitsInDifficulty (p : MathProblem) (difficultyLevel : String) : Bool :=
  match DIFFICULTY_LEVELS difficultyLevel with
  | none => false
  | some d =>
    if d.minNumber ≤ p.operand1 ∧ p.operand1 ≤ d.maxNumber ∧
        d.minNumber ≤ p.operand2 ∧ p.operand2 ≤ d.maxNumber ∧ 0 ≤ p.result then true
    else false

/-- `validateProblem` (part_003 lines 230-264): the problem's own validation,
the difficulty fit, the operator/operation-type agreement, and a non-negative
result; any thrown error is caught and turned into `false` (including the
`TypeError` of reading `.name` from an unknown operation type). -/
def validateProblem (p : MathProblem) (cfg : WorksheetConfig) : Bool :=
  if ¬ isOkE p.validateE then false
  else if ¬ fitsInDifficulty p cfg.difficulty then false
  else
    match OPERATION_TYPES cfg.operationType with
    | none => false
    | some oc =>
      if oc.name = "加法" ∧ p.operator ≠ '+' then false
      else if oc.name = "减法" ∧ p.operator ≠ '-' then false
      else if p.result < 0 then false
      else true

/-- The generator instance state cleared at the start of every run. -/
structure GenState where
  generated : List String
  usage : UsageTracker
deriving DecidableEq, Repr

/-- Record a freshly accepted problem (part_003 lines 68-71): add its signature
to the run's set and track both operands' usage. -/
def acceptCandidate (st : GenState) (p : MathProblem) : GenState :=
  { generated := addSignature st.generated (getProblemSignature p)
    usage := trackNumberUsage (trackNumberUsage st.usage p.operand1) p.operand2 }

/-- The inner retry loop of `generateProblems` (part_003 lines 63-75):
while no problem was accepted and attempts remain, generate a candidate and
accept it iff it validates and is not a duplicate of this run. -/
def tryGenerate (cfg : WorksheetConfig) (dc : DifficultyConfig) (oc : OperationConfig) :
    Nat → GenState → Rng → Except String (Option MathProblem × GenState × Rng)
  | 0, st, g => .ok (none, st, g)
  | fuel + 1, st, g =>
    match generateSingleProblem dc oc st.usage g with
    | .error e => .error e
    | .ok (candidate, g1) =>
      if validateProblem candidate cfg && ! isDuplicate st.generated candidate then
        .ok (some candidate, acceptCandidate st candidate, g1)
      else
        tryGenerate cfg dc oc fuel st g1

/-- The result of one `generateProblems` run: the returned array, the final
instance state, and how many slots fell back to a possibly-duplicate problem
(each such slot emits one `console.warn` in the source). -/
structure GenRun where
  problems : List MathProblem
  state : GenState
  warnings : Nat
deriving DecidableEq, Repr

/-- The outer slot loop of `generateProblems` (part_003 lines 58-84): for each
slot run the retry loop with `maxRetries` fuel; on exhaustion accept a freshly
generated (possibly duplicate) problem and signal a warning. -/
def genLoop (cfg : WorksheetConfig) (dc : DifficultyConfig) (oc : OperationConfig) :
    Nat → GenState → Rng → List MathProblem → Nat → Except String (GenRun × Rng)
  | 0, st, g, acc, warn => .ok (⟨acc, st, warn⟩, g)
  | n + 1, st, g, acc, warn =>
    match tryGenerate cfg dc oc maxRetries st g with
    | .error e => .error e
    | .ok (some p, st1, g1) => genLoop cfg dc oc n st1 g1 (acc ++ [p]) warn
    | .ok (none, st1, g1) =>
      match generateSingleProblem dc oc st1.usage g1 with
      | .error e => .error e
      | .ok (p, g2) => genLoop cfg dc oc n st1 g2 (acc ++ [p]) (warn + 1)

/-- `generateProblems` (part_003 lines 44-87).  `problemCount` is the JS
`count || config.problemCount || 20`.  The tracking state is cleared before the
loop.  An unknown difficulty or operation key makes the first
`generateSingleProblem` call throw a `TypeError` in JS; the model surfaces
that upfront as an error.  (The `!config` null check cannot be expressed —
`cfg` is passed by value.) -/
def ProblemGenerator.generateProblems (cfg : WorksheetConfig) (count : Option Int) (g : Rng) :
    Except String (GenRun × Rng) :=
  let problemCount := jsOrInt count (jsOrInt (some cfg.problemCount) 20)
  match DIFFICULTY_LEVELS cfg.difficulty, OPERATION_TYPES cfg.operationType with
  | some dc, some oc => genLoop cfg dc oc problemCount.toNat ⟨[], []⟩ g [] 0
  | _, _ => .error "Invalid configuration"

/-- The problems of a run, forgetting the stream continuation. -/
def runProblems (e : Except String (GenRun × Rng)) : Option (List MathProblem) :=
  (exceptToOpt e).map (fun r => r.1.problems)

/-- The final usage tracker of a run. -/
def runUsage (e : Except String (GenRun × Rng)) : Option UsageTracker :=
  (exceptToOpt e).map (fun r => r.1.state.usage)

/-- The number of duplicate-fallback warnings of a run. -/
def runWarnings (e : Except String (GenRun × Rng)) : Option Nat :=
  (exceptToOpt e).map (fun r => r.1.warnings)
/-!
## Ratio-controlled generation (src/unnamed/part_003 lines 354-444)
-/

/-- The `ratioConfig` argument `{addition, subtraction}`; either component may
be missing. -/
structure RatioConfig where
  addition : Option Rat := none
  subtraction : Option Rat := none
deriving DecidableEq, Repr

/-- Swap two positions of a list (identity when an index is out of range). -/
def listSwap {α : Type} (l : List α) (i j : Nat) : List α :=
  match l.get? i, l.get? j with
  | some a, some b => (l.set i b).set j a
  | _, _ => l

/-- The Fisher-Yates loop of `shuffleArray` (part_003 lines 489-496), counting
the current index down from `length - 1` to `1`; each step draws
`j = Math.floor(Math.random() * (i + 1))` and swaps positions `i` and `j`. -/
def shuffleIter {α : Type} : Nat → List α → Rng → List α × Rng
  | 0, l, g => (l, g)
  | i + 1, l, g =>
    let (j, g1) := randFloorMul (i + 2) g
    shuffleIter i (listSwap l (i + 1) j) g1

/-- `shuffleArray` (part_003 lines 489-496). -/
def ProblemGenerator.shuffleArray {α : Type} (l : List α) (g : Rng) : List α × Rng :=
  shuffleIter (l.length - 1) l g

/-- The ad-hoc operation config `{ name: targetOperator === '+' ? '加法' : '减法' }`
built inside the ratio loop (part_003 line 408); the unread `symbol` field is
set to the operator. -/
def opConfigForChar (c : Char) : OperationConfig :=
  if c = '+' then ⟨"加法", '+'⟩ else ⟨"减法", '-'⟩

/-- `target - count`, propagating a `NaN` target (`none`). -/
def optSub (t : Option Int) (c : Int) : Option Int :=
  t.map (fun x => x - c)

/-- `x > 0` on a possibly-`NaN` number (`NaN > 0` is `false`). -/
def optPos : Option Int → Bool
  | some x => 0 < x
  | none => false

/-- The target-operator selection of the ratio loop (part_003 lines 391-404):
prefer whichever operation type is proportionally further behind its target;
`getD 0` is only reached when the corresponding target is positive, so the
divisions match the source's. -/
def chooseTargetOperator (addTarget subTarget : Option Int) (addCount subCount : Int) : Char :=
  let additionNeeded := optSub addTarget addCount
  let subtractionNeeded := optSub subTarget subCount
  if optPos additionNeeded && optPos subtractionNeeded then
    let additionProgress : Rat := (addCount : Rat) / ((addTarget.getD 0 : Int) : Rat)
    let subtractionProgress : Rat := (subCount : Rat) / ((subTarget.getD 0 : Int) : Rat)
    if additionProgress ≤ subtractionProgress then '+' else '-'
  else if optPos additionNeeded then '+'
  else '-'

/-- The slot loop of `generateProblemsWithRatioControl` (part_003 lines
386-440): per slot choose the target operator from the running counts, run the
same bounded retry loop, fall back to a fresh (possibly duplicate) problem on
exhaustion, and bump the count of the generated problem's operator. -/
def ratioLoop (cfg : WorksheetConfig) (dc : DifficultyConfig)
    (addTarget subTarget : Option Int) :
    Nat → Int → Int → GenState → Rng → List MathProblem →
    Except String (List MathProblem × GenState × Rng)
  | 0, _, _, st, g, acc => .ok (acc, st, g)
  | n + 1, addCount, subCount, st, g, acc =>
    let oc := opConfigForChar (chooseTargetOperator addTarget subTarget addCount subCount)
    match tryGenerate cfg dc oc maxRetries st g with
    | .error e => .error e
    | .ok (some p, st1, g1) =>
      if p.operator = '+' then ratioLoop cfg dc addTarget subTarget n (addCount + 1) subCount st1 g1 (acc ++ [p])
      else ratioLoop cfg dc addTarget subTarget n addCount (subCount + 1) st1 g1 (acc ++ [p])
    | .ok (none, st1, g1) =>
      match generateSingleProblem dc oc st1.usage g1 with
      | .error e => .error e
      | .ok (p, g2) =>
        if p.operator = '+' then ratioLoop cfg dc addTarget subTarget n (addCount + 1) subCount st1 g2 (acc ++ [p])
        else ratioLoop cfg dc addTarget subTarget n addCount (subCount + 1) st1 g2 (acc ++ [p])

/-- `generateProblemsWithRatioControl` (part_003 lines 354-444): missing ratio
components count as 0 for the tolerance check; a sum further than 0.01 from
1.0 is rejected before anything is generated; non-mixed configurations
delegate to `generateProblems` with the resolved count; in mixed mode the
targets are `Math.round(problemCount * ratio.addition)` (a missing
`ratio.addition` yields `NaN` targets, modelled as `none`) and the final list
is Fisher-Yates-shuffled. -/
def ProblemGenerator.generateProblemsWithRatioControl (cfg : WorksheetConfig)
    (count : Option Int) (ratioConfig : Option RatioConfig) (g : Rng) :
    Except String (List MathProblem × Rng) :=
  let problemCount := jsOrInt count (jsOrInt (some cfg.problemCount) 20)
  let ratio := ratioConfig.getD ⟨some (1 / 2 : Rat), some (1 / 2 : Rat)⟩
  let totalRat : Rat := (ratio.addition.getD 0) + (ratio.subtraction.getD 0)
  if 1 / 100 < |totalRat - 1| then .error "Ratios must sum to 1.0"
  else if cfg.operationType ≠ "mixed" then
    (ProblemGenerator.generateProblems cfg (some problemCount) g).map (fun r => (r.1.problems, r.2))
  else
    match DIFFICULTY_LEVELS cfg.difficulty with
    | none => .error "Invalid configuration"
    | some dc =>
      let addTarget : Option Int := ratio.addition.map (fun a => round ((problemCount : Rat) * a))
      let subTarget : Option Int := addTarget.map (fun t => problemCount - t)
      match ratioLoop cfg dc addTarget subTarget problemCount.toNat 0 0 ⟨[], []⟩ g [] with
      | .error e => .error e
      | .ok (ps, _, g1) => .ok (ProblemGenerator.shuffleArray ps g1)
/-!
## Layout Engine (src/js/core/ImageExporter.js lines 396-1026, `class LayoutEngine`)

Coordinates are `Rat` (JS floating-point coordinates; every quantity the
algorithm computes here is a small rational, so `Number.isFinite` holds
throughout the model).  `getCanvasConfig` and `getFontConfig` return the
globals `CANVAS_CONFIG` and `FONT_CONFIG` (src/unnamed/part_004), which are
defined in this repository, so the in-class fallback objects are unreachable.
The instance fields `currentLayout` and `debugMode` (a cache and a logging
flag, never read by the algorithm) are not modelled.
-/

/-- `CANVAS_CONFIG.width` (part_004 line 913), returned by `getCanvasConfig`. -/
def canvasWidth : Rat := 2480

/-- `CANVAS_CONFIG.height` (part_004 line 914), returned by `getCanvasConfig`. -/
def canvasHeight : Rat := 3508

/-- `CANVAS_CONFIG.margins` (part_004 lines 930-935), identical on all four
sides. -/
def canvasMargin : Rat := 150

/-- One entry of `calculateProblemPositions`' output (ImageExporter.js lines
566-579): the problem, its `position` rectangle and its `metadata` grid
coordinates, flattened into one record. -/
structure PositionedProblem where
  problem : MathProblem
  x : Rat
  y : Rat
  width : Rat
  height : Rat
  row : Nat
  column : Nat
  index : Nat
deriving DecidableEq, Repr

/-- The layout object built by `calculateLayout` (ImageExporter.js lines
432-447); `pageSize`, `margins` and the metadata fields the validators read
are kept (`generatedAt` and the spacing sub-records are not). -/
structure LayoutResult where
  problems : List PositionedProblem
  pageWidth : Rat
  pageHeight : Rat
  margin : Rat
  columns : Nat
  rows : Nat
deriving DecidableEq, Repr

/-- `calculateProblemDimensions` (ImageExporter.js lines 590-607) with the
global `FONT_CONFIG` (part_004: problem size 24, line height 1.2):
`averageCharWidth = 24 * 0.6`, estimated text width `averageCharWidth * 10`,
height `24 * 1.2 + 20` padding.  Returns `(width, height)`; the `textHeight`
field is never read. -/
def calculateProblemDimensions (maxWidth : Rat) : Rat × Rat :=
  (min (24 * (6 / 10) * 10) maxWidth, 24 * (12 / 10) + 20)

/-- The comparator of `preventOverlaps`' sort (ImageExporter.js lines
733-738), as a boolean "compare ≤ 0": same visual row (`|a.y - b.y| < 10`)
orders by `x`, otherwise by `y`.  JS `Array.prototype.sort` is stable, and on
every list this pipeline produces the comparator is consistent, so a stable
insertion sort models it. -/
def sortCompareLe (a b : PositionedProblem) : Bool :=
  if |a.y - b.y| < 10 then a.x ≤ b.x else a.y ≤ b.y

/-- Stable insertion into a list sorted by `le`. -/
def insertSortedBy {α : Type} (le : α → α → Bool) (a : α) : List α → List α
  | [] => [a]
  | b :: rest => if le a b then a :: b :: rest else b :: insertSortedBy le a rest

/-- Stable insertion sort by `le`. -/
def sortByB {α : Type} (le : α → α → Bool) : List α → List α
  | [] => []
  | a :: rest => insertSortedBy le a (sortByB le rest)

/-- The adjustment loop of `preventOverlaps` (ImageExporter.js lines
741-754): walk the sorted list, and when the current problem sits in the same
visual row as the (possibly already adjusted, in place) previous one and its
`x` is inside the previous right edge plus a 10px guard band, move it to
`previous.right + 20`. -/
def preventOverlapsGo : PositionedProblem → List PositionedProblem → List PositionedProblem
  | prev, [] => [prev]
  | prev, cur :: rest =>
    if |cur.y - prev.y| < 10 ∧ cur.x < prev.x + prev.width + 10 then
      preventOverlapsGo { cur with x := prev.x + prev.width + 20 } rest |>.cons prev
    else
      preventOverlapsGo cur rest |>.cons prev

/-- `preventOverlaps` (ImageExporter.js lines 731-757): sort by the
row-then-x comparator, adjust in one pass, and return the list in the sorted
order (the source returns `sortedProblems`, not the original order). -/
def preventOverlaps (problems : List PositionedProblem) : List PositionedProblem :=
  match sortByB sortCompareLe problems with
  | [] => []
  | a :: rest => preventOverlapsGo a rest

/-- `optimizeVerticalSpacing` (ImageExporter.js lines 661-690): for more than
one row, scan the actual positions for the used height `max (y + height)`,
and if `availableHeight - (usedHeight - startY)` is positive, push each row
(computed from the array index, as in the source's `forEach`) down by
`row * remainingSpace / (totalRows - 1)`. -/
def optimizeVerticalSpacing (columns : Nat) (availH startY : Rat)
    (problems : List PositionedProblem) : List PositionedProblem :=
  if problems.length = 0 then problems
  else
    let totalRows := (problems.length + columns - 1) / columns
    if totalRows ≤ 1 then problems
    else
      let usedHeight := problems.foldl (fun m p => max m (p.y + p.height)) 0
      let remainingSpace := availH - (usedHeight - startY)
      if 0 < remainingSpace then
        let extraSpacePerGap := remainingSpace / ((totalRows : Rat) - 1)
        problems.enum.map (fun ip =>
          if 0 < ip.1 / columns then
            { ip.2 with y := ip.2.y + ((ip.1 / columns : Nat) : Rat) * extraSpacePerGap }
          else ip.2)
      else problems

/-- `validateProblemPosition` (ImageExporter.js lines 797-816): the
`problem`/`position` presence and `Number.isFinite` checks always hold in the
model; the positive-dimension check is kept. -/
def validateProblemPositionB (p : PositionedProblem) : Bool :=
  if p.width ≤ 0 ∨ p.height ≤ 0 then false else true

/-- `problemsOverlap` (ImageExporter.js lines 840-848): the negated
separation test (touching edges do not overlap). -/
def problemsOverlapB (p1 p2 : PositionedProblem) : Bool :=
  if p1.x + p1.width ≤ p2.x ∨ p2.x + p2.width ≤ p1.x ∨
      p1.y + p1.height ≤ p2.y ∨ p2.y + p2.height ≤ p1.y then false
  else true

/-- `hasOverlaps` (ImageExporter.js lines 823-832): the nested pair loop as a
recursion over the list. -/
def hasOverlapsB : List PositionedProblem → Bool
  | [] => false
  | a :: rest => rest.any (problemsOverlapB a) || hasOverlapsB rest

/-- `problemsFitInBounds` (ImageExporter.js lines 856-871). -/
def problemsFitInBoundsB (problems : List PositionedProblem) (pageWidth pageHeight : Rat) :
    Bool :=
  problems.all (fun p =>
    if p.x < 0 ∨ p.y < 0 ∨ pageWidth < p.x + p.width ∨ pageHeight < p.y + p.height then false
    else true)

/-- `validateLayout` (ImageExporter.js lines 764-789): every position valid,
no overlaps, everything inside the page bounds. -/
def validateLayoutB (l : LayoutResult) : Bool :=
  l.problems.all validateProblemPositionB &&
  ! hasOverlapsB l.problems &&
  problemsFitInBoundsB l.problems l.pageWidth l.pageHeight

/-- `LayoutEngine.calculateLayout` (ImageExporter.js lines 408-464, with
`calculateProblemPositions` lines 535-583 inlined): reject empty input (an
absent `config` cannot be modelled — `cfg` is passed by value; an unknown
layout key, which makes the source throw a `TypeError` reading `.columns` of
`undefined`, surfaces as an error); resolve columns and spacing from
`LAYOUT_TYPES` and the page constants from `CANVAS_CONFIG`; compute
`columnWidth = (availableWidth - (columns-1)·hSpacing) / columns` and
`rowHeight = max(problemHeight, (availableHeight - (totalRows-1)·vSpacing) /
totalRows)`; place index `i` at `row = ⌊i / columns⌋`, `column = i % columns`;
run `optimizeSpacing` (vertical redistribution, the left-alignment no-op of
`optimizeHorizontalAlignment` lines 698-724, and `preventOverlaps`); and fail
the whole call when `validateLayout` rejects the result. -/
def LayoutEngine.calculateLayout (problems : List MathProblem) (cfg : WorksheetConfig) :
    Except String LayoutResult :=
  if problems.isEmpty then .error "No problems provided for layout calculation"
  else
    match LAYOUT_TYPES cfg.layout with
    | none => .error "Invalid layout"
    | some lt =>
      let columns := lt.columns
      let hs : Rat := (lt.horizontalSpacing : Rat)
      let vs : Rat := (lt.verticalSpacing : Rat)
      let availW : Rat := canvasWidth - canvasMargin - canvasMargin
      let availH : Rat := canvasHeight - canvasMargin - canvasMargin
      let startX : Rat := canvasMargin
      let startY : Rat := canvasMargin
      let columnWidth : Rat := (availW - ((columns : Rat) - 1) * hs) / (columns : Rat)
      let dims := calculateProblemDimensions columnWidth
      let n := problems.length
      let totalRows := (n + columns - 1) / columns
      let availableVerticalSpace : Rat := availH - ((totalRows : Rat) - 1) * vs
      let rowHeight : Rat := max dims.2 (availableVerticalSpace / (totalRows : Rat))
      let positions := problems.enum.map (fun ip =>
        { problem := ip.2
          x := startX + ((ip.1 % columns : Nat) : Rat) * (columnWidth + hs)
          y := startY + ((ip.1 / columns : Nat) : Rat) * (rowHeight + vs)
          width := columnWidth
          height := rowHeight
          row := ip.1 / columns
          column := ip.1 % columns
          index := ip.1 : PositionedProblem })
      let optimized := preventOverlaps (optimizeVerticalSpacing columns availH startY positions)
      let result : LayoutResult :=
        { problems := optimized
          pageWidth := canvasWidth
          pageHeight := canvasHeight
          margin := canvasMargin
          columns := columns
          rows := totalRows }
      if validateLayoutB result then .ok result else .error "Generated layout is invalid"

/-- The layout-result invariant claimed by the spec: an errored call constrains
nothing; a returned `LayoutResult` has pairwise non-intersecting rectangles,
all inside the page bounds. -/
def LayoutResultInvariant : Except String LayoutResult → Prop
  | .error _ => True
  | .ok l =>
    List.Pairwise (fun a b => problemsOverlapB a b = false) l.problems ∧
    ∀ p ∈ l.problems, 0 ≤ p.x ∧ 0 ≤ p.y ∧ p.x + p.width ≤ l.pageWidth ∧ p.y + p.height ≤ l.pageHeight
/-!
## Concrete fixtures used by witnesses and counterexamples
-/

/-- The all-zeros random stream: every integer draw takes the range minimum. -/
def rngZero : Rng := fun _ => 0

/-- The constant-4 random stream: every within-10 operand draw yields `1 + 4 = 5`. -/
def rngFour : Rng := fun _ => 4

/-- A valid within-10 addition configuration asking for one problem. -/
def cfgW10Add1 : WorksheetConfig :=
  ⟨"within10", "addition", "two-column", "blank", "a4", none, 1, false, ""⟩

/-- A valid within-10 addition configuration asking for two problems. -/
def cfgW10Add2 : WorksheetConfig :=
  ⟨"within10", "addition", "two-column", "blank", "a4", none, 2, false, ""⟩

/-- A valid within-10 mixed configuration asking for two problems. -/
def cfgW10Mixed2 : WorksheetConfig :=
  ⟨"within10", "mixed", "two-column", "blank", "a4", none, 2, false, ""⟩

/-- The usage tracker after one within-10 run consisting of the problem
`5 + 5`: the number 5 was used twice, every other number zero times. -/
def usageAfterFiveFive : UsageTracker := [(5, 2)]
/-- Both operands of a problem lie in the difficulty entry's inclusive range. -/
def InRange (dc : DifficultyConfig) (p : MathProblem) : Prop :=
  dc.minNumber ≤ p.operand1 ∧ p.operand1 ≤ dc.maxNumber ∧
  dc.minNumber ≤ p.operand2 ∧ p.operand2 ≤ dc.maxNumber

/-- The resolved ratio sum checked by `generateProblemsWithRatioControl`:
missing components count as 0, a missing `ratioConfig` defaults to 50/50. -/
def ratioTotal (ratioConfig : Option RatioConfig) : Rat :=
  let ratio := ratioConfig.getD ⟨some (1 / 2 : Rat), some (1 / 2 : Rat)⟩
  (ratio.addition.getD 0) + (ratio.subtraction.getD 0)

/-- Constructor options supplying only `problemCount: 0`. -/
def optsPc0 : ConfigOptions := { problemCount := some 0 }

/-- Constructor options supplying only `problemCount: 51`. -/
def optsPc51 : ConfigOptions := { problemCount := some 51 }

/-- The empty constructor options `{}`. -/
def optsEmpty : ConfigOptions := {}

/-- The configuration produced by `new WorksheetConfig({})`. -/
def cfgDefaultW20 : WorksheetConfig :=
  ⟨"within20", "addition", "two-column", "blank", "a4", none, 20, false, ""⟩

/-- An update supplying only `difficulty: 'within50'`. -/
def updDiffW50 : ConfigUpdates := { difficulty := some "within50" }

/-- `cfgW10Add2` after a successful `update({difficulty: 'within50'})`. -/
def cfgW50Add2 : WorksheetConfig :=
  ⟨"within50", "addition", "two-column", "blank", "a4", none, 2, false, ""⟩

/-- An update supplying only `problemCount: 0` (an invalid count). -/
def updPc0 : ConfigUpdates := { problemCount := some 0 }

/-- A ratio configuration summing to 1.2 (rejected). -/
def rcBad : RatioConfig := ⟨some (6 / 10 : Rat), some (6 / 10 : Rat)⟩

/-- The balanced 50/50 ratio configuration (accepted). -/
def rcHalf : RatioConfig := ⟨some (1 / 2 : Rat), some (1 / 2 : Rat)⟩

/-- Six concrete valid problems: a three-row two-column layout. -/
def layoutProblemsSix : List MathProblem :=
  [⟨1, 1, '+', 2⟩, ⟨2, 1, '+', 3⟩, ⟨3, 1, '+', 4⟩, ⟨4, 1, '+', 5⟩, ⟨5, 1, '+', 6⟩,
   ⟨6, 1, '+', 7⟩]
/-!
## Theorems

Helper lemmas first, then one theorem per claim (with witnesses and
counterexamples where required).
-/

theorem create_isOk_iff (operand1 operand2 : Int) (operator : Char) (result : Int) :
    isOkE (MathProblem.create operand1 operand2 operator result) = true ↔
      ProblemInvariant operand1 operand2 operator result := by
  have hcv : isOkE (MathProblem.create operand1 operand2 operator result) =
      isOkE (MathProblem.validateE ⟨operand1, operand2, operator, result⟩) := by
    unfold MathProblem.create
    dsimp only
    cases hv : MathProblem.validateE ⟨operand1, operand2, operator, result⟩ <;>
      simp [hv, isOkE]
  rw [hcv]
  unfold MathProblem.validateE ProblemInvariant
  dsimp only
  split_ifs <;> simp_all [isOkE] <;> omega

theorem create_ok_fields {operand1 operand2 : Int} {operator : Char} {result : Int}
    {p : MathProblem} (h : MathProblem.create operand1 operand2 operator result = .ok p) :
    p = ⟨operand1, operand2, operator, result⟩ := by
  unfold MathProblem.create at h
  dsimp only at h
  cases hv : MathProblem.validateE ⟨operand1, operand2, operator, result⟩ <;>
    rw [hv] at h <;> simp_all

/-- C1: `MathProblem` construction succeeds exactly when the Problem invariant
holds — non-negative (integer) operands, operator `'+'` or `'-'`, result equal
to `operand1 operator operand2` and non-negative (`operand1 >= operand2` for
`'-'` is equivalent to the non-negative result); every constructed problem
carries exactly the validated fields; and `Problem(5,3,'+',9)` fails. -/
theorem claim_C1 :
    (∀ (operand1 operand2 : Int) (operator : Char) (result : Int),
      isOkE (MathProblem.create operand1 operand2 operator result) = true ↔
        ProblemInvariant operand1 operand2 operator result) ∧
    (∀ (operand1 operand2 : Int) (operator : Char) (result : Int) (p : MathProblem),
      MathProblem.create operand1 operand2 operator result = .ok p →
        p.result = (if p.operator = '+' then p.operand1 + p.operand2 else p.operand1 - p.operand2) ∧
        0 ≤ p.result) ∧
    isOkE (MathProblem.create 5 3 '+' 9) = false := by
  refine ⟨create_isOk_iff, ?_, by decide⟩
  intro o1 o2 op res p h
  have hfields := create_ok_fields h
  have hok : isOkE (MathProblem.create o1 o2 op res) = true := by
    rw [h]; rfl
  have hinv := (create_isOk_iff o1 o2 op res).mp hok
  rcases hinv with ⟨-, -, -, hres, hnn⟩
  subst hfields
  exact ⟨hres, hnn⟩
theorem validateE_isOk_iff (c : WorksheetConfig) :
    isOkE c.validateE = true ↔ ConfigInvariant c := by
  unfold WorksheetConfig.validateE ConfigInvariant
  split_ifs with h1 h2 h3 h4 h5 h6 <;>
    simp_all [isOkE, Option.isNone_iff_eq_none, Option.isSome_iff_ne_none,
      problemCountMin, problemCountMax, jsTruthyStr] <;>
    omega

theorem create_ok_eq {o : ConfigOptions} {c : WorksheetConfig}
    (h : WorksheetConfig.create o = .ok c) :
    c = WorksheetConfig.fromOptions o ∧ isOkE c.validateE = true := by
  unfold WorksheetConfig.create at h
  dsimp only at h
  cases hv : (WorksheetConfig.fromOptions o).validateE <;> rw [hv] at h <;> simp_all [isOkE]
/-- C6 counterexample: the options `{problemCount: 0}` — `0` is an integer
outside `[1, 50]`, so the claim demands a validation error — but the
constructor's `options.problemCount || this.getDefaultProblemCount()` treats
`0` as falsy and silently replaces it with the layout default `20`;
construction succeeds. -/
theorem claim_C6_counterexample :
    isOkE (WorksheetConfig.create optsPc0) = true ∧
    (exceptToOpt (WorksheetConfig.create optsPc0)).map (fun c => c.problemCount) = some 20 := by
  constructor <;> decide

/-- C6 (amended): for every options object whose `problemCount` is a *nonzero*
integer outside `[1, 50]`, the constructor fails with a validation error; a
`problemCount` of `0` (JavaScript-falsy) is instead silently replaced by the
layout's default before validation runs. -/
theorem claim_C6 (o : ConfigOptions) (c : Int) (hpc : o.problemCount = some c)
    (hne : c ≠ 0) (hout : c < 1 ∨ 50 < c) :
    isOkE (WorksheetConfig.create o) = false := by
  cases hcr : WorksheetConfig.create o with
  | error e => rfl
  | ok cfg =>
    exfalso
    obtain ⟨hceq, hval⟩ := create_ok_eq hcr
    have hinv := (validateE_isOk_iff cfg).mp hval
    have hc : cfg.problemCount = c := by
      rw [hceq]
      unfold WorksheetConfig.fromOptions
      dsimp only
      simp [jsOrInt, hpc, hne]
    rcases hinv with ⟨-, -, -, -, hlo, hhi, -⟩
    omega

/-- C6 witness: `{problemCount: 51}` is rejected by the constructor. -/
theorem claim_C6_witness : isOkE (WorksheetConfig.create optsPc51) = false :=
  claim_C6 optsPc51 51 rfl (by decide) (by decide)

/-- C7: every configuration returned by a successful constructor call or a
successful `update()` call satisfies the Configuration invariant — all four
enum fields are keys of their lookup tables, `problemCount ∈ [1, 50]`, and a
`custom` background style has a non-empty URL. -/
theorem claim_C7 :
    (∀ (o : ConfigOptions) (c : WorksheetConfig),
      WorksheetConfig.create o = .ok c → ConfigInvariant c) ∧
    (∀ (c : WorksheetConfig) (u : ConfigUpdates) (c' : WorksheetConfig),
      WorksheetConfig.update c u = (c', none) → ConfigInvariant c') := by
  constructor
  · intro o c h
    exact (validateE_isOk_iff c).mp (create_ok_eq h).2
  · intro c u c' h
    unfold WorksheetConfig.update at h
    dsimp only at h
    cases hv : (WorksheetConfig.applyUpdates c u).validateE <;> rw [hv] at h <;> simp_all
    refine (validateE_isOk_iff c').mp ?_
    rw [hv]
    rfl

/-- C7 witness: the default construction and a successful
`update({difficulty: 'within50'})` both yield invariant-satisfying
configurations. -/
theorem claim_C7_witness : ConfigInvariant cfgDefaultW20 ∧ ConfigInvariant cfgW50Add2 :=
  ⟨claim_C7.1 optsEmpty cfgDefaultW20 (by rfl),
   claim_C7.2 cfgW10Add2 updDiffW50 cfgW50Add2 (by rfl)⟩

/-- C10: `update(updates)` writes the updated fields onto the instance before
re-validating, and a validation failure performs no rollback: the first
component of the model's result (the instance's state after the call) is
always the field-assigned record, and in the concrete failed update
`cfgW10Add2.update({problemCount: 0})` an error is raised while the instance
retains the invalid `problemCount = 0`, no longer satisfying validation. -/
theorem claim_C10 :
    (∀ (c : WorksheetConfig) (u : ConfigUpdates),
      (WorksheetConfig.update c u).1 = WorksheetConfig.applyUpdates c u) ∧
    (WorksheetConfig.update cfgW10Add2 updPc0).2.isSome = true ∧
    (WorksheetConfig.update cfgW10Add2 updPc0).1.problemCount = 0 ∧
    WorksheetConfig.validB (WorksheetConfig.update cfgW10Add2 updPc0).1 = false := by
  refine ⟨?_, by decide, by decide, by decide⟩
  intro c u
  unfold WorksheetConfig.update
  dsimp only
  cases hv : (WorksheetConfig.applyUpdates c u).validateE <;> simp [hv]
theorem randomInt_plain_bounds (u : UsageTracker) {min max : Int} (h : min ≤ max) (g : Rng) :
    min ≤ (randomInt u min max false g).1 ∧ (randomInt u min max false g).1 ≤ max := by
  have hfst : (randomInt u min max false g).1 = min + ((g 0 % (max - min + 1).toNat : Nat) : Int) :=
    rfl
  rw [hfst]
  have hn : ((max - min + 1).toNat : Int) = max - min + 1 := Int.toNat_of_nonneg (by omega)
  have hpos : 0 < (max - min + 1).toNat := by omega
  have hlt : g 0 % (max - min + 1).toNat < (max - min + 1).toNat := Nat.mod_lt _ hpos
  omega

theorem generateSingleProblem_ok (dc : DifficultyConfig) (oc : OperationConfig)
    (hmin : 0 ≤ dc.minNumber) (hle : dc.minNumber ≤ dc.maxNumber)
    (hname : oc.name = "加法" ∨ oc.name = "减法" ∨ oc.name = "加减混合")
    (u : UsageTracker) (g : Rng) :
    ∃ p g', generateSingleProblem dc oc u g = .ok (p, g') ∧ InRange dc p := by
  obtain ⟨h1lo, h1hi⟩ := randomInt_plain_bounds u hle g
  rcases hr1 : randomInt u dc.minNumber dc.maxNumber false g with ⟨o1, g1⟩
  rw [hr1] at h1lo h1hi
  obtain ⟨h2lo, h2hi⟩ := randomInt_plain_bounds u hle g1
  rcases hr2 : randomInt u dc.minNumber dc.maxNumber false g1 with ⟨o2, g2⟩
  rw [hr2] at h2lo h2hi
  dsimp only at h1lo h1hi h2lo h2hi
  unfold generateSingleProblem
  rw [hr1]
  dsimp only
  rw [hr2]
  dsimp only
  have hplus : ∀ gx : Rng, ∃ p g',
      (match MathProblem.create o1 o2 '+' (o1 + o2) with
        | .ok p => Except.ok (p, gx)
        | .error e => Except.error e) = .ok (p, g') ∧ InRange dc p := by
    intro gx
    have hok : isOkE (MathProblem.create o1 o2 '+' (o1 + o2)) = true := by
      rw [create_isOk_iff]
      refine ⟨by omega, by omega, Or.inl rfl, (if_pos rfl).symm, by omega⟩
    cases hc : MathProblem.create o1 o2 '+' (o1 + o2) with
    | error e => rw [hc] at hok; exact absurd hok (by simp [isOkE])
    | ok p =>
      have hp := create_ok_fields hc
      refine ⟨p, gx, rfl, ?_⟩
      rw [hp]
      exact ⟨h1lo, h1hi, h2lo, h2hi⟩
  have hminus : ∀ gx : Rng, ∃ p g',
      (match (if o1 < o2 then (o2, o1) else (o1, o2)) with
        | (a, b) =>
          match MathProblem.create a b '-' (a - b) with
          | .ok p => Except.ok (p, gx)
          | .error e => Except.error e) = .ok (p, g') ∧ InRange dc p := by
    intro gx
    rcases hab : (if o1 < o2 then (o2, o1) else (o1, o2)) with ⟨a, b⟩
    have hbounds : dc.minNumber ≤ a ∧ a ≤ dc.maxNumber ∧
        dc.minNumber ≤ b ∧ b ≤ dc.maxNumber ∧ b ≤ a := by
      rcases Decidable.em (o1 < o2) with hsw | hsw
      · rw [if_pos hsw] at hab
        simp only [Prod.mk.injEq] at hab
        omega
      · rw [if_neg hsw] at hab
        simp only [Prod.mk.injEq] at hab
        omega
    dsimp only
    have hok : isOkE (MathProblem.create a b '-' (a - b)) = true := by
      rw [create_isOk_iff]
      refine ⟨by omega, by omega, Or.inr rfl,
        (if_neg (by decide : ¬ ('-' : Char) = '+')).symm, by omega⟩
    cases hc : MathProblem.create a b '-' (a - b) with
    | error e => rw [hc] at hok; exact absurd hok (by simp [isOkE])
    | ok p =>
      have hp := create_ok_fields hc
      refine ⟨p, gx, rfl, ?_⟩
      rw [hp]
      exact ⟨hbounds.1, hbounds.2.1, hbounds.2.2.1, hbounds.2.2.2.1⟩
  rcases hname with hn | hn | hn
  · rw [hn]
    rw [if_pos rfl]
    exact hplus g2
  · rw [hn]
    rw [if_neg (by decide : ¬ ("减法" : String) = "加法"), if_pos rfl]
    exact hminus g2
  · rw [hn]
    rw [if_neg (by decide : ¬ ("加减混合" : String) = "加法"),
      if_neg (by decide : ¬ ("加减混合" : String) = "减法"), if_pos rfl]
    rcases hb : randBoolHalf g2 with ⟨isAdd, g3⟩
    dsimp only
    cases isAdd
    · rw [if_neg (by decide : ¬ (false = true))]
      exact hminus g3
    · rw [if_pos rfl]
      exact hplus g3
theorem tryGenerate_ok (cfg : WorksheetConfig) (dc : DifficultyConfig) (oc : OperationConfig)
    (hmin : 0 ≤ dc.minNumber) (hle : dc.minNumber ≤ dc.maxNumber)
    (hname : oc.name = "加法" ∨ oc.name = "减法" ∨ oc.name = "加减混合") :
    ∀ (fuel : Nat) (st : GenState) (g : Rng),
      ∃ r st' g', tryGenerate cfg dc oc fuel st g = .ok (r, st', g') ∧
        ∀ p, r = some p → InRange dc p := by
  intro fuel
  induction fuel with
  | zero =>
    intro st g
    exact ⟨none, st, g, rfl, by intro p hp; cases hp⟩
  | succ n ih =>
    intro st g
    obtain ⟨p, g1, hsp, hr⟩ := generateSingleProblem_ok dc oc hmin hle hname st.usage g
    unfold tryGenerate
    rw [hsp]
    dsimp only
    by_cases hacc : (validateProblem p cfg && ! isDuplicate st.generated p) = true
    · rw [if_pos hacc]
      exact ⟨some p, acceptCandidate st p, g1, rfl, by intro q hq; cases hq; exact hr⟩
    · rw [if_neg hacc]
      exact ih st g1

theorem genLoop_ok (cfg : WorksheetConfig) (dc : DifficultyConfig) (oc : OperationConfig)
    (hmin : 0 ≤ dc.minNumber) (hle : dc.minNumber ≤ dc.maxNumber)
    (hname : oc.name = "加法" ∨ oc.name = "减法" ∨ oc.name = "加减混合") :
    ∀ (n : Nat) (st : GenState) (g : Rng) (acc : List MathProblem) (warn : Nat),
      (∀ p ∈ acc, InRange dc p) →
      ∃ run g', genLoop cfg dc oc n st g acc warn = .ok (run, g') ∧
        run.problems.length = acc.length + n ∧
        ∀ p ∈ run.problems, InRange dc p := by
  intro n
  induction n with
  | zero =>
    intro st g acc warn hacc
    exact ⟨⟨acc, st, warn⟩, g, rfl, by simp, hacc⟩
  | succ n ih =>
    intro st g acc warn hacc
    obtain ⟨r, st1, g1, htry, hr⟩ := tryGenerate_ok cfg dc oc hmin hle hname maxRetries st g
    unfold genLoop
    rw [htry]
    cases r with
    | some p =>
      dsimp only
      have haccp : ∀ q ∈ acc ++ [p], InRange dc q := by
        intro q hq
        rcases List.mem_append.mp hq with hq | hq
        · exact hacc q hq
        · rw [List.mem_singleton.mp hq]
          exact hr p rfl
      obtain ⟨run, g', hloop, hlen, hall⟩ := ih st1 g1 (acc ++ [p]) warn haccp
      refine ⟨run, g', hloop, ?_, hall⟩
      rw [hlen]
      simp
      omega
    | none =>
      dsimp only
      obtain ⟨p, g2, hsp, hrp⟩ := generateSingleProblem_ok dc oc hmin hle hname st1.usage g1
      rw [hsp]
      dsimp only
      have haccp : ∀ q ∈ acc ++ [p], InRange dc q := by
        intro q hq
        rcases List.mem_append.mp hq with hq | hq
        · exact hacc q hq
        · rw [List.mem_singleton.mp hq]
          exact hrp
      obtain ⟨run, g', hloop, hlen, hall⟩ := ih st1 g2 (acc ++ [p]) (warn + 1) haccp
      refine ⟨run, g', hloop, ?_, hall⟩
      rw [hlen]
      simp
      omega

theorem difficulty_entry_props {k : String} {dc : DifficultyConfig}
    (h : DIFFICULTY_LEVELS k = some dc) : dc.minNumber = 1 ∧ 1 ≤ dc.maxNumber := by
  unfold DIFFICULTY_LEVELS at h
  split_ifs at h <;> simp_all <;> rw [← h] <;> exact ⟨rfl, by decide⟩

theorem operation_entry_props {k : String} {oc : OperationConfig}
    (h : OPERATION_TYPES k = some oc) :
    oc.name = "加法" ∨ oc.name = "减法" ∨ oc.name = "加减混合" := by
  unfold OPERATION_TYPES at h
  split_ifs at h <;> simp_all <;> rw [← h] <;> simp

theorem validB_keys {cfg : WorksheetConfig} (h : cfg.validB = true) :
    (DIFFICULTY_LEVELS cfg.difficulty).isSome ∧ (OPERATION_TYPES cfg.operationType).isSome ∧
      1 ≤ cfg.problemCount ∧ cfg.problemCount ≤ 50 := by
  have hinv := (validateE_isOk_iff cfg).mp h
  exact ⟨hinv.1, hinv.2.1, hinv.2.2.2.2.1, hinv.2.2.2.2.2.1⟩

theorem generateProblems_spec (cfg : WorksheetConfig) (h : cfg.validB = true)
    (count : Option Int) (g : Rng) :
    ∃ run g', ProblemGenerator.generateProblems cfg count g = .ok (run, g') ∧
      run.problems.length = (jsOrInt count (jsOrInt (some cfg.problemCount) 20)).toNat ∧
      ∀ p ∈ run.problems, ∀ dc, DIFFICULTY_LEVELS cfg.difficulty = some dc → InRange dc p := by
  obtain ⟨hd, ho, hlo, hhi⟩ := validB_keys h
  rcases hdc : DIFFICULTY_LEVELS cfg.difficulty with - | dc
  · rw [hdc] at hd; cases hd
  rcases hoc : OPERATION_TYPES cfg.operationType with - | oc
  · rw [hoc] at ho; cases ho
  obtain ⟨hm1, hm2⟩ := difficulty_entry_props hdc
  have hname := operation_entry_props hoc
  obtain ⟨run, g', hloop, hlen, hall⟩ :=
    genLoop_ok cfg dc oc (by omega) (by omega) hname
      (jsOrInt count (jsOrInt (some cfg.problemCount) 20)).toNat ⟨[], []⟩ g [] 0 (by simp)
  refine ⟨run, g', ?_, by simpa using hlen, ?_⟩
  · unfold ProblemGenerator.generateProblems
    rw [hdc, hoc]
    exact hloop
  · intro p hp dc' hdc'
    simp only [hdc, Option.some.injEq] at hdc'
    subst hdc'
    exact hall p hp
theorem generateProblems_length (cfg : WorksheetConfig) (count : Option Int) (g : Rng)
    (h : cfg.validB = true) :
    (runProblems (ProblemGenerator.generateProblems cfg count g)).map List.length =
      some (jsOrInt count (jsOrInt (some cfg.problemCount) 20)).toNat := by
  obtain ⟨run, g', hok, hlen, -⟩ := generateProblems_spec cfg h count g
  rw [runProblems, hok]
  simp [exceptToOpt, hlen]

/-- C5: duplicate exhaustion never hard-fails generation — for every valid
configuration, every count and every random stream, `generateProblems`
returns (it never throws; the bounded 100-attempt retry per slot falls back to
accepting a possibly-duplicate fresh problem, counted as a warning in the
model) and the returned array has exactly the requested length
`count || config.problemCount || 20`. -/
theorem claim_C5 (cfg : WorksheetConfig) (count : Option Int) (g : Rng)
    (h : cfg.validB = true) :
    (runProblems (ProblemGenerator.generateProblems cfg count g)).map List.length =
      some (jsOrInt count (jsOrInt (some cfg.problemCount) 20)).toNat :=
  generateProblems_length cfg count g h

/-- C5 witness: a concrete valid two-problem run returns length 2. -/
theorem claim_C5_witness :
    (runProblems (ProblemGenerator.generateProblems cfgW10Add1 (some 2) rngZero)).map
      List.length = some 2 :=
  claim_C5 cfgW10Add1 (some 2) rngZero (by decide)

/-- C2 counterexample: `generateProblems(config, 0)` with a valid
single-problem configuration returns 1 problem, not 0 — the source computes
`count || config.problemCount || 20`, and the supplied `count = 0` is
JavaScript-falsy, so it is replaced by `config.problemCount`, contradicting
the claim's "for every supplied count, including count = 0". -/
theorem claim_C2_counterexample :
    (runProblems (ProblemGenerator.generateProblems cfgW10Add1 (some 0) rngZero)).map
        List.length = some 1 ∧ (1 : Nat) ≠ 0 := by
  constructor
  · decide
  · decide

/-- C2 (amended): for every valid configuration, `generateProblems` returns an
array of length `count` for every supplied *positive* count, and of length
`config.problemCount` when `count` is omitted **or equals 0** (a supplied 0 is
falsy and falls back to the configuration's count). -/
theorem claim_C2 (cfg : WorksheetConfig) (count : Option Int) (g : Rng)
    (h : cfg.validB = true) :
    (∀ c : Int, count = some c → 0 < c →
      (runProblems (ProblemGenerator.generateProblems cfg count g)).map List.length =
        some c.toNat) ∧
    ((count = none ∨ count = some 0) →
      (runProblems (ProblemGenerator.generateProblems cfg count g)).map List.length =
        some cfg.problemCount.toNat) := by
  have hmain := generateProblems_length cfg count g h
  obtain ⟨-, -, hlo, -⟩ := validB_keys h
  constructor
  · intro c hc hcpos
    rw [hmain, hc]
    simp [jsOrInt]
    omega
  · intro hc
    rw [hmain]
    rcases hc with hc | hc <;> rw [hc] <;> simp [jsOrInt] <;> omega
/-- C2 witness: a valid two-problem configuration — a supplied positive count
of 3 yields 3 problems; an omitted count yields `config.problemCount = 2`. -/
theorem claim_C2_witness :
    (runProblems (ProblemGenerator.generateProblems cfgW10Add2 (some 3) rngZero)).map
        List.length = some 3 ∧
    (runProblems (ProblemGenerator.generateProblems cfgW10Add2 none rngZero)).map
        List.length = some 2 := by
  constructor
  · exact (claim_C2 cfgW10Add2 (some 3) rngZero (by decide)).1 3 rfl (by decide)
  · simpa using (claim_C2 cfgW10Add2 none rngZero (by decide)).2 (Or.inl rfl)

/-- C3: range invariant — for every valid configuration, every count and every
random stream, every problem of a successful `generateProblems` run has both
operands inside the configured difficulty entry's `[minNumber, maxNumber]`. -/
theorem claim_C3 (cfg : WorksheetConfig) (count : Option Int) (g : Rng)
    (dc : DifficultyConfig) (h : cfg.validB = true)
    (hdc : DIFFICULTY_LEVELS cfg.difficulty = some dc)
    (ps : List MathProblem)
    (hps : runProblems (ProblemGenerator.generateProblems cfg count g) = some ps)
    (p : MathProblem) (hp : p ∈ ps) :
    dc.minNumber ≤ p.operand1 ∧ p.operand1 ≤ dc.maxNumber ∧
      dc.minNumber ≤ p.operand2 ∧ p.operand2 ≤ dc.maxNumber := by
  obtain ⟨run, g', hok, -, hall⟩ := generateProblems_spec cfg h count g
  rw [runProblems, hok] at hps
  simp [exceptToOpt] at hps
  subst hps
  exact hall p hp dc hdc

/-- C3 witness: the concrete within-10 run produces `1 + 1`, whose operands
lie in `[1, 10]`. -/
theorem claim_C3_witness :
    (1 : Int) ≤ 1 ∧ (1 : Int) ≤ 10 ∧ (1 : Int) ≤ 1 ∧ (1 : Int) ≤ 10 :=
  claim_C3 cfgW10Add1 (some 1) rngZero ⟨"10以内", 10, 1⟩ (by decide) (by decide)
    [⟨1, 1, '+', 2⟩] (by decide) ⟨1, 1, '+', 2⟩ (by decide)
theorem foldl_min_mem (t : List Nat) : ∀ h : Nat, t.foldl Nat.min h ∈ h :: t := by
  induction t with
  | nil => intro h; simp
  | cons a t ih =>
    intro h
    have hmem := ih (Nat.min h a)
    have hchoice : Nat.min h a = h ∨ Nat.min h a = a := by
      rcases Nat.le_total h a with hle | hle
      · exact Or.inl (Nat.min_eq_left hle)
      · exact Or.inr (Nat.min_eq_right hle)
    rw [List.foldl_cons]
    rcases List.mem_cons.mp hmem with hm | hm
    · rw [hm]
      rcases hchoice with hc | hc <;> rw [hc] <;> simp
    · exact List.mem_cons_of_mem _ (List.mem_cons_of_mem _ hm)

theorem rangeValues_ne_nil {min max : Int} (h : min ≤ max) : rangeValues min max ≠ [] := by
  unfold rangeValues
  intro hc
  have hlen := congrArg List.length hc
  rw [List.length_map, List.length_range] at hlen
  simp at hlen
  omega

theorem minUsage_attained (u : UsageTracker) {min max : Int} (h : min ≤ max) :
    ∃ v ∈ rangeValues min max, getNumberUsage u v = minUsageIn u min max := by
  rcases hL : (rangeValues min max).map (getNumberUsage u) with - | ⟨h0, t0⟩
  · exact absurd (List.map_eq_nil_iff.mp hL) (rangeValues_ne_nil h)
  · have hfold : minUsageIn u min max = t0.foldl Nat.min h0 := by
      unfold minUsageIn
      rw [hL]
    have hmem : t0.foldl Nat.min h0 ∈ h0 :: t0 := foldl_min_mem t0 h0
    rw [← hL] at hmem
    obtain ⟨v, hv, hveq⟩ := List.mem_map.mp hmem
    exact ⟨v, hv, by rw [hveq, hfold]⟩

theorem usageCandidates_ne_nil (u : UsageTracker) {min max : Int} (h : min ≤ max) :
    usageCandidates u min max ≠ [] := by
  obtain ⟨v, hv, hveq⟩ := minUsage_attained u h
  have hmem : v ∈ usageCandidates u min max := by
    unfold usageCandidates
    refine List.mem_filter.mpr ⟨hv, ?_⟩
    simp [hveq]
  exact List.ne_nil_of_mem hmem

theorem getD_mod_mem (l : List Int) (k : Nat) (d : Int) (h : l ≠ []) :
    (l.get? (k % l.length)).getD d ∈ l := by
  have hlen : 0 < l.length := List.length_pos.mpr h
  have hk : k % l.length < l.length := Nat.mod_lt _ hlen
  rw [List.get?_eq_get hk]
  simp [List.get_mem]
theorem randomIntUniform_small_mem (u : UsageTracker) {min max : Int} (g : Rng)
    (hle : min ≤ max) (h20 : max - min + 1 ≤ 20) :
    (randomIntUniform u min max g).1 ∈ usageCandidates u min max := by
  unfold randomIntUniform randFloorMul
  rw [if_pos h20]
  dsimp only
  exact getD_mod_mem _ _ _ (usageCandidates_ne_nil u hle)

theorem usageCandidates_usage_le (u : UsageTracker) (min max : Int) (v : Int)
    (hv : v ∈ usageCandidates u min max) :
    getNumberUsage u v ≤ minUsageIn u min max + 1 := by
  unfold usageCandidates at hv
  have := List.mem_filter.mp hv
  exact of_decide_eq_true this.2

theorem randomIntUniform_large (u : UsageTracker) {min max : Int} (g : Rng)
    (h20 : ¬ (max - min + 1 ≤ 20)) :
    ((randomIntUniform u min max g).1 = min + ((g 0 % (max - min + 1).toNat : Nat) : Int) ∧
      getNumberUsage u (min + ((g 0 % (max - min + 1).toNat : Nat) : Int)) ≤ 2) ∨
    (2 < getNumberUsage u (min + ((g 0 % (max - min + 1).toNat : Nat) : Int)) ∧
      ((randomIntUniform u min max g).1 = min + ((g 0 % (max - min + 1).toNat : Nat) : Int) ∧
          ¬ (g 1 % 10 < 3) ∨
        (randomIntUniform u min max g).1 = min + ((g 2 % (max - min + 1).toNat : Nat) : Int) ∧
          g 1 % 10 < 3)) := by
  unfold randomIntUniform randFloorMul randBool30 rngTail
  rw [if_neg h20]
  dsimp only
  split_ifs with h1 h2
  · right
    refine ⟨h1, Or.inr ⟨by norm_num, ?_⟩⟩
    have := of_decide_eq_true h2
    simpa using this
  · right
    refine ⟨h1, Or.inl ⟨rfl, ?_⟩⟩
    intro hc
    exact h2 (by simp; omega)
  · left
    exact ⟨rfl, by omega⟩
/-- C4 counterexample: operand drawing inside `generateProblems` does *not*
use the usage-balanced sampler.  With the constant-4 stream, a one-problem
within-10 run produces `5 + 5` and leaves the number 5 with usage count 2
(every other number 0); at that state the near-minimum-usage candidate subset
is `[1,2,3,4,6,7,8,9,10]` — it excludes 5 — yet the generator's actual operand
draw (`randomInt` with the flag defaulted to `false`) still returns 5, and the
two-problem run generates `5 + 5` twice. -/
theorem claim_C4_counterexample :
    runUsage (ProblemGenerator.generateProblems cfgW10Add1 (some 1) rngFour) = some [(5, 2)] ∧
    runProblems (ProblemGenerator.generateProblems cfgW10Add2 (some 2) rngFour) =
      some [⟨5, 5, '+', 10⟩, ⟨5, 5, '+', 10⟩] ∧
    (randomInt usageAfterFiveFive 1 10 false rngFour).1 = 5 ∧
    usageCandidates usageAfterFiveFive 1 10 = [1, 2, 3, 4, 6, 7, 8, 9, 10] ∧
    ¬ ((5 : Int) ∈ usageCandidates usageAfterFiveFive 1 10) := by
  refine ⟨by decide, by decide, by decide, by decide, by decide⟩

/-- C4 (amended): the operand draws of `generateProblems` (inside
`generateSingleProblem`) use the plain uniform `randomInt` and are independent
of the usage tracker; the usage-balanced sampler described by the claim is the
separate `randomIntUniform` routine, which `generateProblems` does not invoke:
for ranges of at most 20 values it picks uniformly among the candidates whose
usage count is within 1 of the current minimum, and for larger ranges it makes
a uniform draw with a 30% chance of one re-draw when the candidate's usage
count exceeds 2. -/
theorem claim_C4 :
    (∀ (dc : DifficultyConfig) (oc : OperationConfig) (u u' : UsageTracker) (g : Rng),
      generateSingleProblem dc oc u g = generateSingleProblem dc oc u' g) ∧
    (∀ (u : UsageTracker) (min max : Int) (g : Rng), min ≤ max → max - min + 1 ≤ 20 →
      (randomIntUniform u min max g).1 ∈ usageCandidates u min max ∧
      ∀ v ∈ usageCandidates u min max,
        getNumberUsage u v ≤ minUsageIn u min max + 1) ∧
    (∀ (u : UsageTracker) (min max : Int) (g : Rng), ¬ (max - min + 1 ≤ 20) →
      ((randomIntUniform u min max g).1 = min + ((g 0 % (max - min + 1).toNat : Nat) : Int) ∧
        getNumberUsage u (min + ((g 0 % (max - min + 1).toNat : Nat) : Int)) ≤ 2) ∨
      (2 < getNumberUsage u (min + ((g 0 % (max - min + 1).toNat : Nat) : Int)) ∧
        ((randomIntUniform u min max g).1 = min + ((g 0 % (max - min + 1).toNat : Nat) : Int) ∧
            ¬ (g 1 % 10 < 3) ∨
          (randomIntUniform u min max g).1 = min + ((g 2 % (max - min + 1).toNat : Nat) : Int) ∧
            g 1 % 10 < 3))) := by
  refine ⟨?_, ?_, ?_⟩
  · intro dc oc u u' g
    rfl
  · intro u min max g hle h20
    exact ⟨randomIntUniform_small_mem u g hle h20, usageCandidates_usage_le u min max⟩
  · intro u min max g h20
    exact randomIntUniform_large u g h20

/-- C4 witness: with the empty tracker the balanced sampler on `[1, 10]` picks
inside the candidate set. -/
theorem claim_C4_witness :
    (randomIntUniform [] 1 10 rngZero).1 ∈ usageCandidates [] 1 10 :=
  (claim_C4.2.1 [] 1 10 rngZero (by decide) (by decide)).1
theorem opConfigForChar_name (c : Char) :
    (opConfigForChar c).name = "加法" ∨ (opConfigForChar c).name = "减法" ∨
      (opConfigForChar c).name = "加减混合" := by
  unfold opConfigForChar
  split_ifs <;> simp

theorem ratioLoop_ok (cfg : WorksheetConfig) (dc : DifficultyConfig)
    (hmin : 0 ≤ dc.minNumber) (hle : dc.minNumber ≤ dc.maxNumber)
    (addTarget subTarget : Option Int) :
    ∀ (n : Nat) (addCount subCount : Int) (st : GenState) (g : Rng) (acc : List MathProblem),
      ∃ ps st' g',
        ratioLoop cfg dc addTarget subTarget n addCount subCount st g acc = .ok (ps, st', g') := by
  intro n
  induction n with
  | zero =>
    intro addCount subCount st g acc
    exact ⟨acc, st, g, rfl⟩
  | succ n ih =>
    intro addCount subCount st g acc
    obtain ⟨r, st1, g1, htry, -⟩ :=
      tryGenerate_ok cfg dc
        (opConfigForChar (chooseTargetOperator addTarget subTarget addCount subCount))
        hmin hle (opConfigForChar_name _) maxRetries st g
    unfold ratioLoop
    dsimp only
    rw [htry]
    cases r with
    | some p =>
      dsimp only
      by_cases hop : p.operator = '+'
      · rw [if_pos hop]
        exact ih (addCount + 1) subCount st1 g1 (acc ++ [p])
      · rw [if_neg hop]
        exact ih addCount (subCount + 1) st1 g1 (acc ++ [p])
    | none =>
      dsimp only
      obtain ⟨p, g2, hsp, -⟩ :=
        generateSingleProblem_ok dc
          (opConfigForChar (chooseTargetOperator addTarget subTarget addCount subCount))
          hmin hle (opConfigForChar_name _) st1.usage g1
      rw [hsp]
      dsimp only
      by_cases hop : p.operator = '+'
      · rw [if_pos hop]
        exact ih (addCount + 1) subCount st1 g2 (acc ++ [p])
      · rw [if_neg hop]
        exact ih addCount (subCount + 1) st1 g2 (acc ++ [p])

/-- C8: ratio-controlled generation rejects exactly the bad ratio sums — when
the resolved `addition + subtraction` (missing components counted as 0)
differs from 1.0 by more than 0.01, `generateProblemsWithRatioControl` fails
with `"Ratios must sum to 1.0"` before generating anything; for every valid
configuration, a sum within 0.01 of 1.0 is accepted and generation completes
without error. -/
theorem claim_C8 (cfg : WorksheetConfig) (count : Option Int) (rc : Option RatioConfig)
    (g : Rng) :
    (1 / 100 < |ratioTotal rc - 1| →
      ProblemGenerator.generateProblemsWithRatioControl cfg count rc g =
        .error "Ratios must sum to 1.0") ∧
    (cfg.validB = true → |ratioTotal rc - 1| ≤ 1 / 100 →
      isOkE (ProblemGenerator.generateProblemsWithRatioControl cfg count rc g) = true) := by
  constructor
  · intro hfar
    unfold ProblemGenerator.generateProblemsWithRatioControl
    unfold ratioTotal at hfar
    dsimp only at hfar ⊢
    rw [if_pos hfar]
  · intro hval hnear
    unfold ProblemGenerator.generateProblemsWithRatioControl
    unfold ratioTotal at hnear
    dsimp only at hnear ⊢
    rw [if_neg (not_lt.mpr hnear)]
    obtain ⟨hd, -, -, -⟩ := validB_keys hval
    by_cases hmix : cfg.operationType = "mixed"
    · rw [if_neg (by simp [hmix])]
      rcases hdc : DIFFICULTY_LEVELS cfg.difficulty with - | dc
      · rw [hdc] at hd; cases hd
      dsimp only
      obtain ⟨hm1, hm2⟩ := difficulty_entry_props hdc
      obtain ⟨ps, st', g', hloop⟩ :=
        ratioLoop_ok cfg dc (by omega) (by omega) _ _
          (jsOrInt count (jsOrInt (some cfg.problemCount) 20)).toNat 0 0 ⟨[], []⟩ g []
      rw [hloop]
      rfl
    · rw [if_pos (by simpa using hmix)]
      obtain ⟨run, g', hok, -, -⟩ :=
        generateProblems_spec cfg hval (some (jsOrInt count (jsOrInt (some cfg.problemCount) 20))) g
      rw [hok]
      rfl

/-- C8 witness: the ratio `{addition: 0.6, subtraction: 0.6}` (sum 1.2) is
rejected with the exact error, while `{addition: 0.5, subtraction: 0.5}` is
accepted and a valid mixed two-problem run completes. -/
theorem claim_C8_witness :
    ProblemGenerator.generateProblemsWithRatioControl cfgW10Mixed2 none (some rcBad) rngZero =
      .error "Ratios must sum to 1.0" ∧
    isOkE (ProblemGenerator.generateProblemsWithRatioControl cfgW10Mixed2 none (some rcHalf)
      rngZero) = true := by
  constructor
  · exact (claim_C8 cfgW10Mixed2 none (some rcBad) rngZero).1
      (by norm_num [ratioTotal, rcBad, abs])
  · exact (claim_C8 cfgW10Mixed2 none (some rcHalf) rngZero).2 (by decide)
      (by norm_num [ratioTotal, rcHalf])
theorem hasOverlaps_false_pairwise :
    ∀ l : List PositionedProblem, hasOverlapsB l = false →
      List.Pairwise (fun a b => problemsOverlapB a b = false) l := by
  intro l
  induction l with
  | nil => intro _; exact List.Pairwise.nil
  | cons a rest ih =>
    intro h
    unfold hasOverlapsB at h
    rw [Bool.or_eq_false_iff] at h
    refine List.Pairwise.cons ?_ (ih h.2)
    intro b hb
    have hany := h.1
    rw [List.any_eq_false] at hany
    exact Bool.eq_false_iff.mpr (hany b hb)

theorem boolIfNeg_true {c : Prop} [Decidable c] (h : (if c then false else true) = true) :
    ¬ c := by
  by_cases hc : c
  · rw [if_pos hc] at h
    cases h
  · exact hc

theorem layout_validate_gate (R : LayoutResult) :
    LayoutResultInvariant (if validateLayoutB R then Except.ok R else
      Except.error "Generated layout is invalid") := by
  by_cases h : validateLayoutB R = true
  · rw [if_pos h]
    unfold validateLayoutB at h
    rw [Bool.and_eq_true, Bool.and_eq_true] at h
    obtain ⟨⟨-, hov⟩, hin⟩ := h
    unfold LayoutResultInvariant
    constructor
    · refine hasOverlaps_false_pairwise _ ?_
      rcases hcases : hasOverlapsB R.problems with - | -
      · rfl
      · rw [hcases] at hov; cases hov
    · intro p hp
      unfold problemsFitInBoundsB at hin
      have hb := List.all_eq_true.mp hin p hp
      have hnc := boolIfNeg_true hb
      push_neg at hnc
      exact hnc
  · rw [if_neg h]
    exact trivial

/-- C9: layout result invariant — every `LayoutResult` actually returned by
`LayoutEngine.calculateLayout` (src/js/core/ImageExporter.js lines 408-464)
has pairwise non-intersecting rectangles, all lying inside
`[0, pageWidth] × [0, pageHeight]`; the final `validateLayout` step fails the
whole call otherwise, so an invalid layout is never returned. -/
theorem claim_C9 (problems : List MathProblem) (cfg : WorksheetConfig) :
    LayoutResultInvariant (LayoutEngine.calculateLayout problems cfg) := by
  unfold LayoutEngine.calculateLayout
  by_cases hemp : problems.isEmpty
  · rw [if_pos hemp]
    exact trivial
  · rw [if_neg hemp]
    cases hlt : LAYOUT_TYPES cfg.layout with
    | none => exact trivial
    | some lt =>
      dsimp only
      exact layout_validate_gate _

/-- A concrete successful layout: six problems in the two-column layout (three
rows) are positioned without error, so the C9 invariant is not vacuous on
multi-row inputs. -/
theorem layout_six_problems_ok :
    isOkE (LayoutEngine.calculateLayout layoutProblemsSix cfgW10Add2) = true := by
  norm_num [LayoutEngine.calculateLayout, layoutProblemsSix, cfgW10Add2, LAYOUT_TYPES,
    canvasWidth, canvasHeight, canvasMargin, calculateProblemDimensions,
    optimizeVerticalSpacing, preventOverlaps, sortByB, insertSortedBy, sortCompareLe,
    preventOverlapsGo, validateLayoutB, validateProblemPositionB, hasOverlapsB,
    problemsOverlapB, problemsFitInBoundsB, List.enum, List.range, isOkE]

/-- C1 witness: `2 + 3 = 5` satisfies the invariant and constructs, carrying a
correct non-negative result. -/
theorem claim_C1_witness :
    ProblemInvariant 2 3 '+' 5 ∧
    ((MathProblem.mk 2 3 '+' 5).result =
        (if (MathProblem.mk 2 3 '+' 5).operator = '+' then
          (MathProblem.mk 2 3 '+' 5).operand1 + (MathProblem.mk 2 3 '+' 5).operand2
        else (MathProblem.mk 2 3 '+' 5).operand1 - (MathProblem.mk 2 3 '+' 5).operand2) ∧
      0 ≤ (MathProblem.mk 2 3 '+' 5).result) :=
  ⟨(claim_C1.1 2 3 '+' 5).mp (by decide),
   claim_C1.2.1 2 3 '+' 5 ⟨2, 3, '+', 5⟩ (by rfl)⟩
